import Mathlib

/-!
Shallow embedding of the go-gnss/spartn frame decoder (frame.go and the CRC
source file) and a verification of the specification's claims against it.

Bytes are modelled as `Nat` (well-formed streams carry values `< 256`; theorems
that need this bound take it as a hypothesis).  The `bufio.Reader` is modelled
as the list of bytes not yet consumed: `Peek` inspects without consuming,
`Discard`/`Read` drop a prefix.  `Read` follows Go `bufio.Reader.Read` on a
fully-buffered source: a zero-length read never fails, a read from an exhausted
stream fails with an end-of-stream error, and a short read returns the bytes
that are available together with a nil error, leaving the untouched tail of the
destination buffer zero (Go slices from `make` are zero-initialised).

Go's shift and bitwise-AND operators share one precedence level and associate
to the left, so an expression such as `a << 9 & b << 1 & c >> 7` parses as
`((((a << 9) & b) << 1) & c) >> 7`; the embedding parenthesises accordingly.
No intermediate value here can reach the width of its Go integer type (the
operands are bytes and the shifts are small), so no reduction modulo 2^16 or
2^32 is required except for `TimeTag << 16`, which is taken modulo 2^32 exactly
where Go's uint32 arithmetic would wrap.
-/

set_option maxRecDepth 20000

namespace Spartn

/-- Error outcomes of the decoder, one constructor per failure site of the Go
source: propagated reader failures (`stream`), the preamble test, the header
CRC comparison, the whole-frame CRC comparison, and the invalid-CRC-type
default branches. -/
inductive Err where
  | stream
  | invalidPreamble
  | headerCRCMismatch
  | crcMismatch
  | invalidCRCType
deriving DecidableEq, Repr

/-- The `Frame` struct of frame.go.  Field defaults are Go zero values: the Go
code declares `var frame Frame` implicitly via the named return value. -/
structure Frame where
  Preamble : Nat := 0
  MessageType : Nat := 0
  PayloadLength : Nat := 0
  EAF : Bool := false
  MessageCRCType : Nat := 0
  CRC : Nat := 0
  MessageSubtype : Nat := 0
  TimeTagType : Bool := false
  TimeTag : Nat := 0
  SolutionID : Nat := 0
  SolutionProcessorID : Nat := 0
  EncryptionID : Nat := 0
  EncryptionSequenceNumber : Nat := 0
  AuthenticationIndicator : Nat := 0
  EmbeddedAuthenticationLength : Nat := 0
  MessagePayload : List Nat := []
  EmbeddedAuthenticationData : List Nat := []
  MessageCRC : Nat := 0
deriving DecidableEq, Repr

/-- One shift step of the snksoft/crc bit-by-bit engine for an unreflected CRC:
shift the register left and fold the generator polynomial in when the top bit
was set, keeping the register inside `width` bits. -/
def crcBit (width poly reg : Nat) : Nat :=
  if reg &&& 2 ^ (width - 1) = 0 then (reg <<< 1) &&& (2 ^ width - 1)
  else ((reg <<< 1) ^^^ poly) &&& (2 ^ width - 1)

/-- Absorb one data byte into the CRC register (unreflected input, width a
multiple of 8 and at least 8, as for all parameter sets used by the source). -/
def crcByte (width poly : Nat) (reg b : Nat) : Nat :=
  (List.range 8).foldl (fun r _ => crcBit width poly r) (reg ^^^ (b <<< (width - 8)))

/-- The snksoft/crc `CalculateCRC` computation for an unreflected parameter set
`(width, poly, init, finalXor)`, as instantiated by the source for the four
whole-frame algorithms and the header hash. -/
def crcCalc (width poly init finalXor : Nat) (data : List Nat) : Nat :=
  ((data.foldl (crcByte width poly) init) ^^^ finalXor) &&& (2 ^ width - 1)

/-- The package-level `FrameHash` (width 8, polynomial 0x09, zero init and
final XOR, unreflected) applied to a byte slice. -/
def FrameHashCalculateCRC (data : List Nat) : Nat :=
  crcCalc 8 0x09 0 0 data

/-- The `MessageCRCType.CalculateCRC` method: dispatch on the selector to one
of four fixed parameter sets, or fail on an unrecognized selector.  Returns the
pair (value, error) exactly as the Go method does. -/
def CalculateCRC (t : Nat) (data : List Nat) : Nat × Option Err :=
  match t with
  | 0 => (crcCalc 8 0x07 0 0 data, none)
  | 1 => (crcCalc 16 0x1021 0 0 data, none)
  | 2 => (crcCalc 24 0x864CFB 0 0 data, none)
  | 3 => (crcCalc 32 0x04C11DB7 0xFFFFFFFF 0xFFFFFFFF data, none)
  | _ => (0, some .invalidCRCType)

/-- Model of `bufio.Reader.Read` into a fresh zeroed buffer of length `n` over
a fully-buffered stream: a zero-length read succeeds without touching the
stream; a read from an exhausted stream returns the zero buffer and an
end-of-stream error; otherwise the available prefix (at most `n` bytes) is
returned with a nil error, the short remainder of the buffer staying zero. -/
def goRead (n : Nat) (s : List Nat) : List Nat × Option Err × List Nat :=
  if n = 0 then ([], none, s)
  else
    match s with
    | [] => (List.replicate n 0, some .stream, [])
    | _ :: _ => (s.take n ++ List.replicate (n - s.length) 0, none, s.drop n)

/-- Result of `DeserializeFrameStart`: the peeked header bytes, the updated
frame, the error, and the not-yet-consumed stream. -/
structure FrameStartRes where
  frameHeader : List Nat
  frame : Frame
  err : Option Err
  rest : List Nat
deriving DecidableEq, Repr

/-- Result of `DeserializePayloadDescriptionBlock`. -/
structure PDRes where
  parsedBytes : List Nat
  frame : Frame
  err : Option Err
  rest : List Nat
deriving DecidableEq, Repr

/-- Result of `DeserializeMessageCRC`. -/
structure CRCReadRes where
  c : Nat
  err : Option Err
  rest : List Nat
deriving DecidableEq, Repr

/-- Result of `DeserializeFrame`: Go returns the (possibly partially filled)
frame together with the error. -/
structure FrameRes where
  frame : Frame
  err : Option Err
  rest : List Nat
deriving DecidableEq, Repr

/-- `DeserializeFrameStart` of frame.go: peek 3 bytes, extract MessageType,
PayloadLength, EAF, MessageCRCType and the embedded CRC nibble, compare the
header hash of the first two bytes against the nibble, and only on a match
discard the 3 bytes.  The field extractions reproduce the source expressions
under Go's left-associative shift/AND parsing. -/
def DeserializeFrameStart (s : List Nat) (frame : Frame) : FrameStartRes :=
  if s.length < 3 then
    { frameHeader := s.take 3, frame := frame, err := some .stream, rest := s }
  else
    let h0 := s.getD 0 0
    let h1 := s.getD 1 0
    let h2 := s.getD 2 0
    let frame := { frame with
      MessageType := h0 >>> 1,
      PayloadLength := ((((h0 &&& 0x01) <<< 9) &&& h1) <<< 1 &&& h2) >>> 7,
      EAF := ((h2 &&& 0x40) >>> 6) == 0x01,
      MessageCRCType := (h2 &&& 0x30) >>> 4,
      CRC := h2 &&& 0x0F }
    if FrameHashCalculateCRC [h0, h1] ≠ frame.CRC then
      { frameHeader := s.take 3, frame := frame, err := some .headerCRCMismatch, rest := s }
    else
      { frameHeader := s.take 3, frame := frame, err := none, rest := s.drop 3 }

/-- Field extractions performed after the payload-description window has been
resliced: the Go code indexes `payloadDescription[0] .. payloadDescription[3]`
of the window resliced at `off` (2 when TimeTagType parsed false, 4 when true),
so byte `i` of the view is byte `off + i` of the window; `s` here is the stream
at entry to the block, whose first 8 bytes are the peeked window. -/
def pdFields (frame : Frame) (s : List Nat) (off : Nat) : Frame :=
  { frame with
    SolutionID := (((s.getD (off + 0) 0) &&& 0x07) <<< 4 &&& ((s.getD (off + 1) 0) &&& 0xF0)) >>> 4,
    SolutionProcessorID := (s.getD (off + 1) 0) &&& 0x0F,
    EncryptionID := ((s.getD (off + 2) 0) &&& 0xF0) >>> 4,
    EncryptionSequenceNumber :=
      (((s.getD (off + 2) 0) &&& 0x0F) <<< 4 &&& ((s.getD (off + 3) 0) &&& 0xC0)) >>> 6,
    AuthenticationIndicator := ((s.getD (off + 3) 0) &&& 0x38) >>> 3,
    EmbeddedAuthenticationLength := (s.getD (off + 3) 0) &&& 0x7 }

/-- `DeserializePayloadDescriptionBlock` of frame.go: peek 8 bytes
unconditionally, extract MessageSubtype, the TimeTagType flag and TimeTag, then
branch on the flag: consume 8 bytes and reslice the window at offset 4 keeping
all 8 peeked bytes as the parsed bytes, or consume 6 bytes, return the 6-byte
prefix as the parsed bytes, and reslice the window at offset 2; finally extract
the remaining fields from the resliced window. -/
def DeserializePayloadDescriptionBlock (s : List Nat) (frame : Frame) : PDRes :=
  if s.length < 8 then
    { parsedBytes := [], frame := frame, err := some .stream, rest := s }
  else
    let frame := { frame with
      MessageSubtype := (s.getD 0 0) >>> 4,
      TimeTagType := (((s.getD 0 0) &&& 0x04) >>> 3) == 0x01,
      TimeTag := ((((s.getD 0 0) &&& 0x07) <<< 13 &&& (s.getD 1 0)) <<< 5
        &&& ((s.getD 2 0) &&& 0xF8)) >>> 3 }
    if frame.TimeTagType then
      { parsedBytes := s.take 8,
        frame := pdFields { frame with
          TimeTag := ((((frame.TimeTag <<< 16) % 2 ^ 32 &&& ((s.getD 2 0) &&& 0x07)) <<< 13
            &&& (s.getD 3 0)) <<< 5 &&& ((s.getD 4 0) &&& 0xF8)) >>> 3 } s 4,
        err := none, rest := s.drop 8 }
    else
      { parsedBytes := s.take 6, frame := pdFields frame s 2, err := none, rest := s.drop 6 }

/-- `DeserializeMessageCRC` of the CRC source file: dispatch on the selector,
read 1, 2, 3 or 4 bytes and combine them with the source's shift/AND
expressions; an unrecognized selector fails without touching the stream. -/
def DeserializeMessageCRC (t : Nat) (s : List Nat) : CRCReadRes :=
  match t with
  | 0 =>
    match s with
    | [] => { c := 0, err := some .stream, rest := [] }
    | b :: rest => { c := b, err := none, rest := rest }
  | 1 =>
    let (b, e, rest) := goRead 2 s
    { c := ((b.getD 0 0) <<< 8) &&& (b.getD 1 0), err := e, rest := rest }
  | 2 =>
    let (b, e, rest) := goRead 3 s
    { c := (((b.getD 0 0) <<< 16 &&& (b.getD 1 0)) <<< 8) &&& (b.getD 2 0),
      err := e, rest := rest }
  | 3 =>
    let (b, e, rest) := goRead 4 s
    { c := ((((b.getD 0 0) <<< 24 &&& (b.getD 1 0)) <<< 16 &&& (b.getD 2 0)) <<< 8)
        &&& (b.getD 3 0), err := e, rest := rest }
  | _ => { c := 0, err := some .invalidCRCType, rest := s }

/-- `DeserializeFrame` of frame.go: read and test the preamble byte, run the
header and payload-description parsers, read the payload and the embedded
authentication bytes with lengths taken from the parsed fields, read the
trailing CRC, recompute the selected CRC over header, parsed description,
payload and authentication bytes (discarding the returned error as the source
does), and compare. -/
def DeserializeFrame (s : List Nat) : FrameRes :=
  match s with
  | [] => { frame := {}, err := some .stream, rest := [] }
  | b :: r0 =>
    if b ≠ 0x73 then { frame := { Preamble := b }, err := some .invalidPreamble, rest := r0 }
    else
      match DeserializeFrameStart r0 { Preamble := b } with
      | ⟨_, fr1, some e, r1⟩ => { frame := fr1, err := some e, rest := r1 }
      | ⟨fh, fr1, none, r1⟩ =>
        match DeserializePayloadDescriptionBlock r1 fr1 with
        | ⟨_, fr2, some e, r2⟩ => { frame := fr2, err := some e, rest := r2 }
        | ⟨pb, fr2, none, r2⟩ =>
          match goRead fr2.PayloadLength r2 with
          | (pay, some e, r3) =>
            { frame := { fr2 with MessagePayload := pay }, err := some e, rest := r3 }
          | (pay, none, r3) =>
            let fr3 := { fr2 with MessagePayload := pay }
            match goRead fr3.EmbeddedAuthenticationLength r3 with
            | (auth, some e, r4) =>
              { frame := { fr3 with EmbeddedAuthenticationData := auth }, err := some e,
                rest := r4 }
            | (auth, none, r4) =>
              let fr4 := { fr3 with EmbeddedAuthenticationData := auth }
              match DeserializeMessageCRC fr4.MessageCRCType r4 with
              | ⟨c, some e, r5⟩ =>
                { frame := { fr4 with MessageCRC := c }, err := some e, rest := r5 }
              | ⟨c, none, r5⟩ =>
                let fr5 := { fr4 with MessageCRC := c }
                let crc := (CalculateCRC fr5.MessageCRCType
                  (fh ++ pb ++ fr5.MessagePayload ++ fr5.EmbeddedAuthenticationData)).1
                if crc ≠ fr5.MessageCRC then
                  { frame := fr5, err := some .crcMismatch, rest := r5 }
                else
                  { frame := fr5, err := none, rest := r5 }

/-- Byte width of the on-wire trailing CRC for each recognized selector. -/
def crcByteLen (t : Nat) : Nat :=
  match t with
  | 0 => 1
  | 1 => 2
  | 2 => 3
  | 3 => 4
  | _ => 0

/-- Big-endian byte encoding of a value into `nbytes` bytes, most significant
byte first, as the spec prescribes for the trailing checksum. -/
def encodeBE (nbytes v : Nat) : List Nat :=
  (List.range nbytes).map (fun i => (v >>> (8 * (nbytes - 1 - i))) &&& 0xFF)

/-- Modelled from the spec: the repository contains no encoder; spec section 8
refers to a paired test-only encoder producing well-formed frames, and this
definition packs a `Frame`'s fields most-significant-bit-first per the wire
layout table of spec section 3 (preamble byte; MessageType 7 bits;
PayloadLength 10 bits; EAF 1; MessageCRCType 2; HeaderCRC 4, the header hash of
the first two header bytes truncated to its 4-bit field; MessageSubtype 4;
TimeTagType 1; TimeTag 16 or 32 bits; SolutionID 7; SolutionProcessorID 4;
EncryptionID 4; EncryptionSequenceNumber 6; AuthenticationIndicator 3;
EmbeddedAuthenticationLength 3; payload; authentication bytes; trailing
checksum over header through authentication, most significant byte first). -/
def EncodeFrame (f : Frame) : List Nat :=
  let b1 := ((f.MessageType &&& 0x7F) <<< 1) ||| ((f.PayloadLength >>> 9) &&& 1)
  let b2 := (f.PayloadLength >>> 1) &&& 0xFF
  let hcrc := (FrameHashCalculateCRC [b1, b2]) &&& 0x0F
  let b3 := ((f.PayloadLength &&& 1) <<< 7) ||| ((if f.EAF then 1 else 0) <<< 6) |||
    ((f.MessageCRCType &&& 3) <<< 4) ||| hcrc
  let pdTail :=
    [ ((f.EncryptionID &&& 0xF) <<< 4) ||| ((f.EncryptionSequenceNumber >>> 2) &&& 0xF),
      ((f.EncryptionSequenceNumber &&& 3) <<< 6) ||| ((f.AuthenticationIndicator &&& 7) <<< 3) |||
        (f.EmbeddedAuthenticationLength &&& 7) ]
  let pd :=
    if f.TimeTagType then
      [ ((f.MessageSubtype &&& 0xF) <<< 4) ||| (1 <<< 3) ||| ((f.TimeTag >>> 29) &&& 7),
        (f.TimeTag >>> 21) &&& 0xFF,
        (f.TimeTag >>> 13) &&& 0xFF,
        (f.TimeTag >>> 5) &&& 0xFF,
        ((f.TimeTag &&& 0x1F) <<< 3) ||| ((f.SolutionID >>> 4) &&& 7),
        ((f.SolutionID &&& 0xF) <<< 4) ||| (f.SolutionProcessorID &&& 0xF) ] ++ pdTail
    else
      [ ((f.MessageSubtype &&& 0xF) <<< 4) ||| ((f.TimeTag >>> 13) &&& 7),
        (f.TimeTag >>> 5) &&& 0xFF,
        ((f.TimeTag &&& 0x1F) <<< 3) ||| ((f.SolutionID >>> 4) &&& 7),
        ((f.SolutionID &&& 0xF) <<< 4) ||| (f.SolutionProcessorID &&& 0xF) ] ++ pdTail
  let body := [b1, b2, b3] ++ pd ++ f.MessagePayload ++ f.EmbeddedAuthenticationData
  let crc := (CalculateCRC (f.MessageCRCType &&& 3) body).1
  0x73 :: (body ++ encodeBE (crcByteLen (f.MessageCRCType &&& 3)) crc)

/-- A frame whose encoder-packed PayloadLength is 1 with a one-byte payload
(all other fields zero); its header bytes hash to a value whose 4-bit
truncation is exact, so the decoder's header check passes on its encoding. -/
def c1Frame : Frame := { PayloadLength := 1, MessagePayload := [0xAB] }

/-- A frame selecting the 16-bit whole-frame checksum with a one-byte
authentication blob; used to truncate its encoding one byte early. -/
def c7Frame : Frame :=
  { MessageCRCType := 1, EmbeddedAuthenticationLength := 1, EmbeddedAuthenticationData := [0] }

/-- The minimal example frame of the spec: preamble, two zero header bytes
(whose header hash is 0, matching the embedded nibble 0 of the third header
byte), a zero third header byte (PayloadLength bit 0, EAF 0, MessageCRCType 0,
checksum nibble 0), a six-byte all-zero payload-description block (TimeTagType
wire bit 0, EmbeddedAuthenticationLength 0), and the 1-byte trailing checksum
(the 8-bit CRC of the nine zero bytes, which is 0) — and nothing else. -/
def c2FrameBytes : List Nat := 0x73 :: List.replicate 10 0

/-! Bit-level facts about the source's shift/AND merge expressions. -/

/-- A value shifted left by `k` bits shares no set bit with a value below
`2 ^ j` when `j ≤ k`, so their bitwise AND is zero. -/
theorem shiftLeft_and_eq_zero (x y j k : Nat) (hy : y < 2 ^ j) (hjk : j ≤ k) :
    (x <<< k) &&& y = 0 := by
  apply Nat.eq_of_testBit_eq
  intro i
  rw [Nat.testBit_and, Nat.zero_testBit, Nat.testBit_shiftLeft]
  rcases lt_or_le i k with h | h
  · simp [Nat.not_le.2 h]
  · have hyi : y < 2 ^ i :=
      lt_of_lt_of_le hy (Nat.pow_le_pow_right (by norm_num) (le_trans hjk h))
    simp [Nat.testBit_lt_two_pow hyi]

/-- The PayloadLength merge of `DeserializeFrameStart` ANDs the fragment
shifted to bit 9 with a plain byte, so it is always zero for byte input. -/
theorem payloadLength_zero (h0 h1 h2 : Nat) (hb : h1 < 256) :
    ((((h0 &&& 0x01) <<< 9) &&& h1) <<< 1 &&& h2) >>> 7 = 0 := by
  rw [shiftLeft_and_eq_zero (h0 &&& 0x01) h1 8 9 hb (by norm_num)]
  simp

/-- The TimeTag merge of `DeserializePayloadDescriptionBlock` ANDs the
fragment shifted to bit 13 with a plain byte, so it is always zero for byte
input. -/
theorem timeTag_zero (p0 p1 p2 : Nat) (hb : p1 < 256) :
    (((p0 &&& 0x07) <<< 13 &&& p1) <<< 5 &&& (p2 &&& 0xF8)) >>> 3 = 0 := by
  rw [shiftLeft_and_eq_zero (p0 &&& 0x07) p1 8 13 hb (by norm_num)]
  simp

/-- The TimeTagType extraction masks bit 2 but shifts right by 3, so the
parsed flag is false for every input byte. -/
theorem timeTagTypeBit_false (p0 : Nat) : ((((p0 &&& 0x04) >>> 3) == 0x01) = false) := by
  have h : (p0 &&& 0x04) >>> 3 = 0 := by
    rw [Nat.shiftRight_eq_div_pow]
    exact Nat.div_eq_of_lt (lt_of_le_of_lt Nat.and_le_right (by norm_num))
  rw [h]
  rfl

/-- The MessageCRCType extraction keeps 2 bits, so its value is below 4. -/
theorem messageCRCType_lt_four (h2 : Nat) : (h2 &&& 0x30) >>> 4 < 4 := by
  rw [Nat.shiftRight_eq_div_pow]
  have h : h2 &&& 0x30 ≤ 0x30 := Nat.and_le_right
  omega

/-- Reading any position of a byte list (default 0) stays below 256. -/
theorem getD_lt_256 (s : List Nat) (hb : ∀ x ∈ s, x < 256) (i : Nat) : s.getD i 0 < 256 := by
  rcases lt_or_le i s.length with h | h
  · rw [List.getD_eq_getElem?_getD, List.getElem?_eq_getElem h]
    exact hb _ (List.getElem_mem h)
  · rw [List.getD_eq_getElem?_getD, List.getElem?_eq_none h]
    norm_num

/-! Behavior of the modelled reader primitives. -/

/-- A `Read` never fails except with an end-of-stream error. -/
theorem goRead_err_cases (n : Nat) (s : List Nat) :
    (goRead n s).2.1 = none ∨ (goRead n s).2.1 = some Err.stream := by
  unfold goRead
  split
  · exact Or.inl rfl
  · split
    · exact Or.inr rfl
    · exact Or.inl rfl

/-- A successful `Read` of `n` bytes leaves the stream past those bytes (for a
short read, past the end). -/
theorem goRead_ok_rest (n : Nat) (s : List Nat) (h : (goRead n s).2.1 = none) :
    (goRead n s).2.2 = s.drop n := by
  unfold goRead at h ⊢
  split at h
  · next h0 => rw [if_pos h0]; subst h0; rfl
  · next h0 =>
    rw [if_neg h0]
    split at h
    · exact absurd h (by simp)
    · rfl

/-- The remaining stream after a `Read` is a suffix of the input stream. -/
theorem goRead_rest_subset (n : Nat) (s : List Nat) :
    ∀ x ∈ (goRead n s).2.2, x ∈ s := by
  unfold goRead
  split
  · exact fun x hx => hx
  · split
    · intro x hx; simp at hx
    · exact fun x hx => List.mem_of_mem_drop hx

/-! Shape lemmas for `DeserializeFrameStart`. -/

/-- The header parser fails only with an end-of-stream error (not touching the
frame) or a header CRC mismatch. -/
theorem frameStart_err_cases (s : List Nat) (f : Frame) :
    (DeserializeFrameStart s f).err = none ∨
    (DeserializeFrameStart s f).err = some Err.stream ∨
    (DeserializeFrameStart s f).err = some Err.headerCRCMismatch := by
  unfold DeserializeFrameStart
  dsimp only
  split
  · exact Or.inr (Or.inl rfl)
  · split
    · exact Or.inr (Or.inr rfl)
    · exact Or.inl rfl

/-- On success the header parser has consumed exactly 3 bytes and has set
MessageCRCType from the 2-bit field of the third byte. -/
theorem frameStart_ok_shape (s : List Nat) (f : Frame)
    (h : (DeserializeFrameStart s f).err = none) :
    (DeserializeFrameStart s f).rest = s.drop 3 ∧
    (DeserializeFrameStart s f).frame.MessageCRCType = ((s.getD 2 0) &&& 0x30) >>> 4 := by
  unfold DeserializeFrameStart at h ⊢
  dsimp only at h ⊢
  split at h
  · exact absurd h (by simp)
  · next h3 =>
    rw [if_neg h3]
    split at h
    · exact absurd h (by simp)
    · next hcrc =>
      rw [if_neg hcrc]
      exact ⟨rfl, rfl⟩

/-- The header parser leaves a frame whose PayloadLength, TimeTag and
MessagePayload are zero/empty whenever they were so on entry (for byte input,
the AND-merged PayloadLength it writes is itself zero). -/
theorem frameStart_zero_fields (s : List Nat) (f : Frame) (hb : s.getD 1 0 < 256)
    (h1 : f.PayloadLength = 0) (h2 : f.TimeTag = 0) (h3 : f.MessagePayload = []) :
    (DeserializeFrameStart s f).frame.PayloadLength = 0 ∧
    (DeserializeFrameStart s f).frame.TimeTag = 0 ∧
    (DeserializeFrameStart s f).frame.MessagePayload = [] ∧
    (DeserializeFrameStart s f).frame.EmbeddedAuthenticationLength =
      f.EmbeddedAuthenticationLength := by
  unfold DeserializeFrameStart
  dsimp only
  split
  · exact ⟨h1, h2, h3, rfl⟩
  · split
    · exact ⟨payloadLength_zero _ _ _ hb, h2, h3, rfl⟩
    · exact ⟨payloadLength_zero _ _ _ hb, h2, h3, rfl⟩

/-- The stream left behind by the header parser is a suffix of its input. -/
theorem frameStart_rest_subset (s : List Nat) (f : Frame) :
    ∀ x ∈ (DeserializeFrameStart s f).rest, x ∈ s := by
  unfold DeserializeFrameStart
  dsimp only
  split
  · exact fun x hx => hx
  · split
    · exact fun x hx => hx
    · exact fun x hx => List.mem_of_mem_drop hx

/-! Shape lemmas for `DeserializePayloadDescriptionBlock`. -/

/-- The payload-description parser fails only with an end-of-stream error,
leaving the frame and the stream untouched. -/
theorem pd_err_cases (s : List Nat) (f : Frame) :
    (DeserializePayloadDescriptionBlock s f).err = none ∨
    DeserializePayloadDescriptionBlock s f =
      { parsedBytes := [], frame := f, err := some Err.stream, rest := s } := by
  unfold DeserializePayloadDescriptionBlock
  dsimp only
  split
  · exact Or.inr rfl
  · split
    · exact Or.inl rfl
    · exact Or.inl rfl

/-- On success the payload-description parser has consumed exactly 6 bytes
(the parsed TimeTagType flag is false on every input) and reads
EmbeddedAuthenticationLength from the low bits of window byte 5. -/
theorem pd_ok_shape (s : List Nat) (f : Frame)
    (h : (DeserializePayloadDescriptionBlock s f).err = none) :
    (DeserializePayloadDescriptionBlock s f).rest = s.drop 6 ∧
    (DeserializePayloadDescriptionBlock s f).frame.EmbeddedAuthenticationLength =
      (s.getD 5 0) &&& 0x7 ∧
    (DeserializePayloadDescriptionBlock s f).frame.MessageCRCType = f.MessageCRCType ∧
    (DeserializePayloadDescriptionBlock s f).frame.PayloadLength = f.PayloadLength := by
  unfold DeserializePayloadDescriptionBlock at h ⊢
  dsimp only at h ⊢
  simp only [timeTagTypeBit_false] at h ⊢
  split at h
  · exact absurd h (by simp)
  · next h8 =>
    rw [if_neg h8]
    split at h
    · next htt => exact absurd htt (by simp)
    · next htt =>
      rw [if_neg htt]
      exact ⟨rfl, rfl, rfl, rfl⟩

/-- The payload-description parser leaves PayloadLength and MessagePayload as
they were and, for byte input, zeroes TimeTag (the AND-merge) whenever it
succeeds, or leaves it as it was on failure. -/
theorem pd_zero_fields (s : List Nat) (f : Frame) (hb : s.getD 1 0 < 256)
    (h1 : f.PayloadLength = 0) (h2 : f.TimeTag = 0) (h3 : f.MessagePayload = []) :
    (DeserializePayloadDescriptionBlock s f).frame.PayloadLength = 0 ∧
    (DeserializePayloadDescriptionBlock s f).frame.TimeTag = 0 ∧
    (DeserializePayloadDescriptionBlock s f).frame.MessagePayload = [] := by
  unfold DeserializePayloadDescriptionBlock
  dsimp only
  simp only [timeTagTypeBit_false]
  split
  · exact ⟨h1, h2, h3⟩
  · split
    · next htt => exact absurd htt (by simp)
    · exact ⟨h1, timeTag_zero _ _ _ hb, h3⟩

/-- The stream left behind by the payload-description parser is a suffix of
its input. -/
theorem pd_rest_subset (s : List Nat) (f : Frame) :
    ∀ x ∈ (DeserializePayloadDescriptionBlock s f).rest, x ∈ s := by
  unfold DeserializePayloadDescriptionBlock
  dsimp only
  split
  · exact fun x hx => hx
  · split
    · exact fun x hx => List.mem_of_mem_drop hx
    · exact fun x hx => List.mem_of_mem_drop hx

/-! Shape lemmas for `DeserializeMessageCRC`. -/

/-- The trailing-CRC reader fails only with an end-of-stream error or the
invalid-selector error, never with a CRC-comparison error. -/
theorem messageCRCRead_err_cases (t : Nat) (s : List Nat) :
    (DeserializeMessageCRC t s).err = none ∨
    (DeserializeMessageCRC t s).err = some Err.stream ∨
    (DeserializeMessageCRC t s).err = some Err.invalidCRCType := by
  match t with
  | 0 =>
    cases s
    · exact Or.inr (Or.inl rfl)
    · exact Or.inl rfl
  | 1 => rcases goRead_err_cases 2 s with h | h <;> [exact Or.inl h; exact Or.inr (Or.inl h)]
  | 2 => rcases goRead_err_cases 3 s with h | h <;> [exact Or.inl h; exact Or.inr (Or.inl h)]
  | 3 => rcases goRead_err_cases 4 s with h | h <;> [exact Or.inl h; exact Or.inr (Or.inl h)]
  | n + 4 => exact Or.inr (Or.inr rfl)

/-- A successful trailing-CRC read for a recognized selector consumes exactly
the selector's byte width. -/
theorem messageCRCRead_ok_rest (t : Nat) (s : List Nat) (ht : t < 4)
    (h : (DeserializeMessageCRC t s).err = none) :
    (DeserializeMessageCRC t s).rest = s.drop (crcByteLen t) := by
  match t, ht with
  | 0, _ =>
    cases s with
    | nil => exact absurd h (by simp [DeserializeMessageCRC])
    | cons b r => rfl
  | 1, _ => exact goRead_ok_rest 2 s h
  | 2, _ => exact goRead_ok_rest 3 s h
  | 3, _ => exact goRead_ok_rest 4 s h

/-- For a recognized selector the trailing-CRC reader never takes the
invalid-selector default branch. -/
theorem messageCRCRead_recognized (t : Nat) (ht : t < 4) (s : List Nat) :
    (DeserializeMessageCRC t s).err ≠ some Err.invalidCRCType := by
  have h4 : t = 0 ∨ t = 1 ∨ t = 2 ∨ t = 3 := by omega
  rcases h4 with rfl | rfl | rfl | rfl
  · cases s
    · simp [DeserializeMessageCRC]
    · simp [DeserializeMessageCRC]
  · show (goRead 2 s).2.1 ≠ some Err.invalidCRCType
    rcases goRead_err_cases 2 s with he | he <;> simp [he]
  · show (goRead 3 s).2.1 ≠ some Err.invalidCRCType
    rcases goRead_err_cases 3 s with he | he <;> simp [he]
  · show (goRead 4 s).2.1 ≠ some Err.invalidCRCType
    rcases goRead_err_cases 4 s with he | he <;> simp [he]

/-- For a recognized selector `CalculateCRC` returns a nil error. -/
theorem calculateCRC_ok (t : Nat) (ht : t < 4) (data : List Nat) :
    (CalculateCRC t data).2 = none := by
  have h4 : t = 0 ∨ t = 1 ∨ t = 2 ∨ t = 3 := by omega
  rcases h4 with rfl | rfl | rfl | rfl <;> rfl

/-! Claim theorems. -/

/-- C1: the claim says that decoding a frame produced by a faithful encoder of
the wire layout reproduces every header field exactly; on the code this fails:
the encoder packs PayloadLength 1, but `DeserializeFrame` run on that encoding
leaves PayloadLength 0 (the AND-merge of the shifted fragments) and fails the
whole-frame CRC comparison instead of succeeding. -/
theorem c1_decode_drops_payload_length :
    (DeserializeFrame (EncodeFrame c1Frame)).frame.PayloadLength = 0 ∧
    c1Frame.PayloadLength = 1 ∧
    (DeserializeFrame (EncodeFrame c1Frame)).err = some Err.crcMismatch := by
  refine ⟨?_, rfl, ?_⟩ <;> decide

/-- C2: the claim says the minimal example frame (preamble, three header bytes
with matching checksum nibble, six-byte payload-description block with all
lengths zero, one trailing checksum byte, and nothing else) decodes
successfully; on the code it does not: the payload-description parser peeks 8
bytes while only 7 remain (6 description bytes plus 1 checksum byte), so
`DeserializeFrame` fails with an end-of-stream error. -/
theorem c2_minimal_frame_stream_error :
    (DeserializeFrame c2FrameBytes).err = some Err.stream := by decide

/-- C3: the claim says a payload-description block whose TimeTagType wire bit
(bit 3 of the first window byte) is 1 consumes 8 bytes with a 32-bit TimeTag;
on the code the flag is computed as `(b & 0x04) >> 3`, which is 0 for every
byte, so on the window 0x08,0,0,0,0,0,0,0 (wire bit set) the parser still
consumes exactly 6 bytes, parses the flag as false, and leaves TimeTag 0. -/
theorem c3_wire_timetag_bit_ignored :
    (DeserializePayloadDescriptionBlock [0x08, 0, 0, 0, 0, 0, 0, 0] {}).rest = [0, 0] ∧
    (DeserializePayloadDescriptionBlock [0x08, 0, 0, 0, 0, 0, 0, 0] {}).frame.TimeTagType
      = false ∧
    (DeserializePayloadDescriptionBlock [0x08, 0, 0, 0, 0, 0, 0, 0] {}).frame.TimeTag = 0 := by
  refine ⟨?_, ?_, ?_⟩ <;> decide

/-- C4: the claim says `DeserializeMessageCRC` returns the consumed bytes
reassembled most-significant byte first (for width 16, b0*256 + b1); on the
code the bytes are merged with AND instead of OR, so for selector 1 on the
stream 0x12, 0x34 it consumes both bytes but returns 0, not 0x1234. -/
theorem c4_crc16_parse_returns_zero :
    (DeserializeMessageCRC 1 [0x12, 0x34]).rest = [] ∧
    (DeserializeMessageCRC 1 [0x12, 0x34]).err = none ∧
    (DeserializeMessageCRC 1 [0x12, 0x34]).c = 0 ∧
    (DeserializeMessageCRC 1 [0x12, 0x34]).c ≠ 0x12 * 256 + 0x34 := by
  refine ⟨?_, ?_, ?_, ?_⟩ <;> decide

/-- C7: the claim says any strict prefix of a well-formed frame makes
`DeserializeFrame` fail with a stream error; on the code, truncating the last
byte of the encoded `c7Frame` (16-bit trailing checksum) makes the final
2-byte read return the single available byte with a nil error, so the decoder
reaches the checksum comparison and fails with an integrity error instead of a
stream error. -/
theorem c7_truncated_frame_integrity_error :
    (DeserializeFrame ((EncodeFrame c7Frame).dropLast)).err = some Err.crcMismatch ∧
    some Err.crcMismatch ≠ some Err.stream := by
  refine ⟨?_, by decide⟩
  decide

/-- C9 counterexample: the claim says SolutionID (like TimeTag and
EncryptionSequenceNumber) as set by `DeserializePayloadDescriptionBlock` is
always 0; on the window 0,0,7,0x70,0,0,0,0 the parser sets SolutionID to 7. -/
theorem c9_counterexample_solution_id_nonzero :
    (DeserializePayloadDescriptionBlock [0, 0, 7, 0x70, 0, 0, 0, 0] {}).frame.SolutionID = 7 ∧
    (7 : Nat) ≠ 0 := by
  refine ⟨?_, by decide⟩
  decide

/-- C5: for every stream with at least 3 bytes available, if the header hash
(CRC-8, polynomial 0x09) of the first 2 peeked bytes differs from the embedded
4-bit checksum nibble then `DeserializeFrameStart` fails with the header
integrity error and leaves the stream unchanged; if it matches, exactly 3
bytes are consumed and those 3 bytes are returned as the header for the
whole-frame checksum recomputation. -/
theorem c5_header_crc_contract (s : List Nat) (f : Frame) (h : 3 ≤ s.length) :
    (FrameHashCalculateCRC (s.take 2) ≠ (s.getD 2 0) &&& 0x0F →
      (DeserializeFrameStart s f).err = some Err.headerCRCMismatch ∧
      (DeserializeFrameStart s f).rest = s) ∧
    (FrameHashCalculateCRC (s.take 2) = (s.getD 2 0) &&& 0x0F →
      (DeserializeFrameStart s f).err = none ∧
      (DeserializeFrameStart s f).rest = s.drop 3 ∧
      (DeserializeFrameStart s f).frameHeader = s.take 3) := by
  rcases s with _ | ⟨a, s⟩
  · simp at h
  rcases s with _ | ⟨b, s⟩
  · simp at h
  rcases s with _ | ⟨c, s⟩
  · simp at h
  unfold DeserializeFrameStart
  dsimp only
  rw [if_neg (by simp)]
  simp only [show (a :: b :: c :: s).getD 0 0 = a from rfl,
    show (a :: b :: c :: s).getD 1 0 = b from rfl,
    show (a :: b :: c :: s).getD 2 0 = c from rfl,
    show (a :: b :: c :: s).take 2 = [a, b] from rfl]
  constructor
  · intro hcrc
    rw [if_pos hcrc]
    exact ⟨rfl, rfl⟩
  · intro hcrc
    rw [if_neg (by simpa using hcrc)]
    exact ⟨rfl, rfl, rfl⟩

/-- Witness for C5 at the concrete stream 0,0,0,7: the hash of 0,0 is 0 and
matches the nibble, so the parser succeeds, consumes 3 bytes, and returns
them. -/
theorem c5_header_crc_contract_witness :
    3 ≤ ([0, 0, 0, 7] : List Nat).length ∧
    FrameHashCalculateCRC (([0, 0, 0, 7] : List Nat).take 2) =
      (([0, 0, 0, 7] : List Nat).getD 2 0) &&& 0x0F ∧
    (DeserializeFrameStart [0, 0, 0, 7] {}).err = none ∧
    (DeserializeFrameStart [0, 0, 0, 7] {}).rest = [7] ∧
    (DeserializeFrameStart [0, 0, 0, 7] {}).frameHeader = [0, 0, 0] := by
  have h := (c5_header_crc_contract [0, 0, 0, 7] {} (by decide)).2 (by decide)
  exact ⟨by decide, by decide, h.1, h.2.1, h.2.2⟩

/-- C8: for every selector that is not one of 0, 1, 2, 3, both
`DeserializeMessageCRC` and `CalculateCRC` fail with the invalid-CRC-type
protocol error, the stream is left untouched, and the returned value is the
zero value (no checksum computation is performed). -/
theorem c8_invalid_selector_protocol_error (t : Nat) (ht : 3 < t) (s data : List Nat) :
    (DeserializeMessageCRC t s).err = some Err.invalidCRCType ∧
    (DeserializeMessageCRC t s).rest = s ∧
    (DeserializeMessageCRC t s).c = 0 ∧
    (CalculateCRC t data).2 = some Err.invalidCRCType ∧
    (CalculateCRC t data).1 = 0 := by
  obtain ⟨n, rfl⟩ : ∃ n, t = n + 4 := ⟨t - 4, by omega⟩
  exact ⟨rfl, rfl, rfl, rfl, rfl⟩

/-- Witness for C8 at selector 5 on a nonempty stream. -/
theorem c8_invalid_selector_protocol_error_witness :
    3 < 5 ∧
    (DeserializeMessageCRC 5 [1, 2]).err = some Err.invalidCRCType ∧
    (DeserializeMessageCRC 5 [1, 2]).rest = [1, 2] ∧
    (DeserializeMessageCRC 5 [1, 2]).c = 0 ∧
    (CalculateCRC 5 [9]).2 = some Err.invalidCRCType ∧
    (CalculateCRC 5 [9]).1 = 0 := by
  have h := c8_invalid_selector_protocol_error 5 (by decide) [1, 2] [9]
  exact ⟨by decide, h.1, h.2.1, h.2.2.1, h.2.2.2.1, h.2.2.2.2⟩

/-- C10: whenever at least 3 bytes are available, the MessageCRCType that
`DeserializeFrameStart` stores comes from a 2-bit field and so is below 4;
consequently `CalculateCRC` at that selector never returns an error (the error
discarded at its call site in `DeserializeFrame` is always nil) and
`DeserializeMessageCRC` at that selector never reaches its invalid-selector
default branch. -/
theorem c10_crc_type_always_recognized (s : List Nat) (f : Frame) (data r : List Nat)
    (h : 3 ≤ s.length) :
    (DeserializeFrameStart s f).frame.MessageCRCType < 4 ∧
    (CalculateCRC (DeserializeFrameStart s f).frame.MessageCRCType data).2 = none ∧
    (DeserializeMessageCRC (DeserializeFrameStart s f).frame.MessageCRCType r).err ≠
      some Err.invalidCRCType := by
  have h4 : (DeserializeFrameStart s f).frame.MessageCRCType < 4 := by
    unfold DeserializeFrameStart
    dsimp only
    rw [if_neg (by omega)]
    split
    · exact messageCRCType_lt_four _
    · exact messageCRCType_lt_four _
  exact ⟨h4, calculateCRC_ok _ h4 data, messageCRCRead_recognized _ h4 r⟩

/-- Witness for C10 at the stream 0,0,0x15 (MessageCRCType field bits 01). -/
theorem c10_crc_type_always_recognized_witness :
    3 ≤ ([0, 0, 0x15] : List Nat).length ∧
    (DeserializeFrameStart [0, 0, 0x15] {}).frame.MessageCRCType < 4 ∧
    (CalculateCRC (DeserializeFrameStart [0, 0, 0x15] {}).frame.MessageCRCType []).2 = none ∧
    (DeserializeMessageCRC (DeserializeFrameStart [0, 0, 0x15] {}).frame.MessageCRCType
      [1, 2]).err ≠ some Err.invalidCRCType := by
  have h := c10_crc_type_always_recognized [0, 0, 0x15] {} [] [1, 2] (by decide)
  exact ⟨by decide, h.1, h.2.1, h.2.2⟩

/-- C9 (amended): for every byte stream, PayloadLength as set by
`DeserializeFrameStart` is 0 (the shifted fragments are merged with AND, not
OR), hence MessagePayload in every frame returned by `DeserializeFrame` is
empty, and TimeTag is always 0; however SolutionID and
EncryptionSequenceNumber are not always 0 (their AND-merges can overlap). -/
theorem c9_and_merged_fields_zero (s : List Nat) (hb : ∀ x ∈ s, x < 256) :
    (DeserializeFrame s).frame.PayloadLength = 0 ∧
    (DeserializeFrame s).frame.TimeTag = 0 ∧
    (DeserializeFrame s).frame.MessagePayload = [] := by
  rcases s with _ | ⟨b, r0⟩
  · exact ⟨rfl, rfl, rfl⟩
  · have hb0 : ∀ x ∈ r0, x < 256 := fun x hx => hb x (List.mem_cons_of_mem _ hx)
    simp only [DeserializeFrame]
    split
    · exact ⟨rfl, rfl, rfl⟩
    · rcases heq1 : DeserializeFrameStart r0 { Preamble := b } with ⟨fh, fr1, e1, r1⟩
      have hz1 : fr1.PayloadLength = 0 ∧ fr1.TimeTag = 0 ∧ fr1.MessagePayload = [] := by
        have h := frameStart_zero_fields r0 { Preamble := b } (getD_lt_256 r0 hb0 1) rfl rfl rfl
        rw [heq1] at h
        exact ⟨h.1, h.2.1, h.2.2.1⟩
      have hsub1 : ∀ x ∈ r1, x ∈ r0 := by
        have h := frameStart_rest_subset r0 { Preamble := b }
        rwa [heq1] at h
      cases e1 with
      | some e => exact hz1
      | none =>
        dsimp only
        rcases heq2 : DeserializePayloadDescriptionBlock r1 fr1 with ⟨pb, fr2, e2, r2⟩
        have hz2 : fr2.PayloadLength = 0 ∧ fr2.TimeTag = 0 ∧ fr2.MessagePayload = [] := by
          have h := pd_zero_fields r1 fr1 (getD_lt_256 r1 (fun x hx => hb0 x (hsub1 x hx)) 1)
            hz1.1 hz1.2.1 hz1.2.2
          rwa [heq2] at h
        cases e2 with
        | some e => exact hz2
        | none =>
          dsimp only
          rw [hz2.1]
          have hg0 : goRead 0 r2 = ([], none, r2) := rfl
          rw [hg0]
          dsimp only
          rcases heq4 : goRead fr2.EmbeddedAuthenticationLength r2 with ⟨auth, e4, r4⟩
          cases e4 with
          | some e => exact ⟨rfl, hz2.2.1, rfl⟩
          | none =>
            dsimp only
            rcases heq5 : DeserializeMessageCRC fr2.MessageCRCType r4 with ⟨c, e5, r5⟩
            cases e5 with
            | some e => exact ⟨rfl, hz2.2.1, rfl⟩
            | none =>
              dsimp only
              split
              · exact ⟨rfl, hz2.2.1, rfl⟩
              · exact ⟨rfl, hz2.2.1, rfl⟩

/-- Witness for C9 (amended) at a 12-byte stream that decodes successfully. -/
theorem c9_and_merged_fields_zero_witness :
    (∀ x ∈ (0x73 :: List.replicate 11 0 : List Nat), x < 256) ∧
    (DeserializeFrame (0x73 :: List.replicate 11 0)).frame.PayloadLength = 0 ∧
    (DeserializeFrame (0x73 :: List.replicate 11 0)).frame.TimeTag = 0 ∧
    (DeserializeFrame (0x73 :: List.replicate 11 0)).frame.MessagePayload = [] :=
  ⟨by decide, c9_and_merged_fields_zero (0x73 :: List.replicate 11 0) (by decide)⟩

/-- C6: whenever `DeserializeFrame` fails with the whole-frame CRC mismatch
error, the stream position is past the entire frame: 1 preamble byte, 3 header
bytes, 6 payload-description bytes, the (always zero-length) payload, the
authentication bytes, and the trailing checksum bytes have all been
consumed. -/
theorem c6_crc_mismatch_consumes_whole_frame (s : List Nat) (hb : ∀ x ∈ s, x < 256)
    (he : (DeserializeFrame s).err = some Err.crcMismatch) :
    (DeserializeFrame s).rest =
      s.drop (10 + (DeserializeFrame s).frame.EmbeddedAuthenticationLength +
        crcByteLen (DeserializeFrame s).frame.MessageCRCType) := by
  rcases s with _ | ⟨b, r0⟩
  · exact absurd (show (some Err.stream : Option Err) = some Err.crcMismatch from he) (by decide)
  · have hb0 : ∀ x ∈ r0, x < 256 := fun x hx => hb x (List.mem_cons_of_mem _ hx)
    simp only [DeserializeFrame] at he ⊢
    split at he
    · exact absurd
        (show (some Err.invalidPreamble : Option Err) = some Err.crcMismatch from he) (by decide)
    · next hbp =>
      rw [if_neg hbp]
      rcases heq1 : DeserializeFrameStart r0 { Preamble := b } with ⟨fh, fr1, e1, r1⟩
      rw [heq1] at he
      cases e1 with
      | some e =>
        exfalso
        have he' : e = Err.crcMismatch :=
          Option.some.inj (show (some e : Option Err) = some Err.crcMismatch from he)
        rcases frameStart_err_cases r0 { Preamble := b } with hc | hc | hc <;> rw [heq1] at hc
        · exact Option.noConfusion (show (some e : Option Err) = none from hc)
        · have h1 : e = Err.stream :=
            Option.some.inj (show (some e : Option Err) = some Err.stream from hc)
          rw [h1] at he'
          exact absurd he' (by decide)
        · have h1 : e = Err.headerCRCMismatch :=
            Option.some.inj (show (some e : Option Err) = some Err.headerCRCMismatch from hc)
          rw [h1] at he'
          exact absurd he' (by decide)
      | none =>
        dsimp only at he ⊢
        have hok1 := frameStart_ok_shape r0 { Preamble := b } (by rw [heq1])
        rw [heq1] at hok1
        have hr1 : r1 = r0.drop 3 := hok1.1
        rcases heq2 : DeserializePayloadDescriptionBlock r1 fr1 with ⟨pb, fr2, e2, r2⟩
        rw [heq2] at he
        cases e2 with
        | some e =>
          exfalso
          have he' : e = Err.crcMismatch :=
            Option.some.inj (show (some e : Option Err) = some Err.crcMismatch from he)
          rcases pd_err_cases r1 fr1 with hc | hc <;> rw [heq2] at hc
          · exact Option.noConfusion (show (some e : Option Err) = none from hc)
          · have h1 : e = Err.stream :=
              Option.some.inj (show (some e : Option Err) = some Err.stream from congrArg PDRes.err hc)
            rw [h1] at he'
            exact absurd he' (by decide)
        | none =>
          dsimp only at he ⊢
          have hok2 := pd_ok_shape r1 fr1 (by rw [heq2])
          rw [heq2] at hok2
          have hr2 : r2 = r1.drop 6 := hok2.1
          have hct : fr2.MessageCRCType = fr1.MessageCRCType := hok2.2.2.1
          have hpl0 : fr2.PayloadLength = 0 := by
            have hz1 := frameStart_zero_fields r0 { Preamble := b } (getD_lt_256 r0 hb0 1)
              rfl rfl rfl
            rw [heq1] at hz1
            have h := hok2.2.2.2
            rw [h]
            exact hz1.1
          rw [hpl0] at he ⊢
          have hg0 : goRead 0 r2 = ([], none, r2) := rfl
          rw [hg0] at he ⊢
          dsimp only at he ⊢
          rcases heq4 : goRead fr2.EmbeddedAuthenticationLength r2 with ⟨auth, e4, r4⟩
          rw [heq4] at he
          cases e4 with
          | some e =>
            exfalso
            have he' : e = Err.crcMismatch :=
              Option.some.inj (show (some e : Option Err) = some Err.crcMismatch from he)
            rcases goRead_err_cases fr2.EmbeddedAuthenticationLength r2 with hc | hc <;>
              rw [heq4] at hc
            · exact Option.noConfusion (show (some e : Option Err) = none from hc)
            · have h1 : e = Err.stream :=
                Option.some.inj (show (some e : Option Err) = some Err.stream from hc)
              rw [h1] at he'
              exact absurd he' (by decide)
          | none =>
            dsimp only at he ⊢
            have hr4 : r4 = r2.drop fr2.EmbeddedAuthenticationLength := by
              have h := goRead_ok_rest fr2.EmbeddedAuthenticationLength r2 (by rw [heq4])
              rw [heq4] at h
              exact h
            rcases heq5 : DeserializeMessageCRC fr2.MessageCRCType r4 with ⟨c, e5, r5⟩
            rw [heq5] at he
            cases e5 with
            | some e =>
              exfalso
              have he' : e = Err.crcMismatch :=
                Option.some.inj (show (some e : Option Err) = some Err.crcMismatch from he)
              rcases messageCRCRead_err_cases fr2.MessageCRCType r4 with hc | hc | hc <;>
                rw [heq5] at hc
              · exact Option.noConfusion (show (some e : Option Err) = none from hc)
              · have h1 : e = Err.stream :=
                  Option.some.inj (show (some e : Option Err) = some Err.stream from hc)
                rw [h1] at he'
                exact absurd he' (by decide)
              · have h1 : e = Err.invalidCRCType :=
                  Option.some.inj (show (some e : Option Err) = some Err.invalidCRCType from hc)
                rw [h1] at he'
                exact absurd he' (by decide)
            | none =>
              dsimp only at he ⊢
              have hct4 : fr2.MessageCRCType < 4 := by
                rw [hct, hok1.2]
                exact messageCRCType_lt_four _
              have hr5 : r5 = r4.drop (crcByteLen fr2.MessageCRCType) := by
                have h := messageCRCRead_ok_rest fr2.MessageCRCType r4 hct4 (by rw [heq5])
                rw [heq5] at h
                exact h
              split at he
              · next hcond =>
                rw [if_pos hcond]
                dsimp only
                subst hr5 hr4 hr2 hr1
                rw [List.drop_drop, List.drop_drop, List.drop_drop]
                have harith : 10 + fr2.EmbeddedAuthenticationLength +
                    crcByteLen fr2.MessageCRCType =
                    (3 + 6 + fr2.EmbeddedAuthenticationLength +
                      crcByteLen fr2.MessageCRCType) + 1 := by omega
                rw [harith, List.drop_succ_cons]
                congr 1
                omega
              · exact absurd
                  (show (none : Option Err) = some Err.crcMismatch from he) (by decide)

/-- Witness for C6 at a 12-byte stream whose trailing checksum byte is wrong:
the decoder fails with the CRC mismatch error having consumed the 11-byte
frame (preamble, 3 header bytes, 6 description bytes, empty payload and
authentication, 1 checksum byte), leaving the padding byte. -/
theorem c6_crc_mismatch_consumes_whole_frame_witness :
    (∀ x ∈ ([0x73, 0, 0, 0, 0, 0, 0, 0, 0, 0, 1, 0] : List Nat), x < 256) ∧
    (DeserializeFrame [0x73, 0, 0, 0, 0, 0, 0, 0, 0, 0, 1, 0]).err = some Err.crcMismatch ∧
    (DeserializeFrame [0x73, 0, 0, 0, 0, 0, 0, 0, 0, 0, 1, 0]).rest =
      ([0x73, 0, 0, 0, 0, 0, 0, 0, 0, 0, 1, 0] : List Nat).drop
        (10 + (DeserializeFrame [0x73, 0, 0, 0, 0, 0, 0, 0, 0, 0, 1, 0]).frame.EmbeddedAuthenticationLength +
          crcByteLen (DeserializeFrame [0x73, 0, 0, 0, 0, 0, 0, 0, 0, 0, 1, 0]).frame.MessageCRCType) :=
  ⟨by decide, by decide,
    c6_crc_mismatch_consumes_whole_frame [0x73, 0, 0, 0, 0, 0, 0, 0, 0, 0, 1, 0]
      (by decide) (by decide)⟩

end Spartn
